import Mathlib

/-!
Shallow embedding of the layer-compositing and text-effect engine of
`app.py` (Sinhala Text Creator).  Pure helper functions are translated
directly; PIL drawing primitives, font realization and alpha blending are
external collaborators and appear as explicit function parameters.  A
Python exception is modelled as `Option.none` at the point where it would
escape the translated code.
-/

namespace SinhalaTextCreator

/-! ## Color codec

The source has no dedicated parse function; every parse site uses the idiom
`tuple(int(h.lstrip('#')[i:i+2], 16) for i in (0, 2, 4))`
(`apply_neon_effect` lines 319-320, `apply_3d_shadow_effect` lines 357-358,
`apply_gradient_effect` lines 370-371, `render_text_layer` lines 386-388,
`render_social_text_layer` lines 492, 512). -/

/-- Hexadecimal digit recognizer for Python `int(s, 16)`. -/
def isHexDigit (c : Char) : Bool :=
  c.isDigit || ('a' ≤ c && c ≤ 'f') || ('A' ≤ c && c ≤ 'F')

/-- Value of a hexadecimal digit. -/
def hexDigitVal (c : Char) : Nat :=
  if c.isDigit then c.toNat - '0'.toNat
  else if 'a' ≤ c && c ≤ 'f' then c.toNat - 'a'.toNat + 10
  else c.toNat - 'A'.toNat + 10

/-- Python `int(s, 16)` on a short slice: succeeds on a non-empty string of
hexadecimal digits, raises `ValueError` (here `none`) otherwise.  (Python
additionally tolerates surrounding whitespace, a sign and a `0x` prefix;
those forms are irrelevant to the two-character slices taken below and to
every input considered in the theorems.) -/
def pyIntHex16 (cs : List Char) : Option Nat :=
  if cs.isEmpty then none
  else if cs.all isHexDigit then
    some (cs.foldl (fun a c => 16 * a + hexDigitVal c) 0)
  else none

/-- Python `s.lstrip('#')`: drop every leading `'#'`. -/
def lstripHash (cs : List Char) : List Char := cs.dropWhile (· == '#')

/-- The parse idiom `tuple(int(h.lstrip('#')[i:i+2], 16) for i in (0,2,4))`.
Python slicing `[i:i+2]` silently yields a short or empty string when the
input is short; `int` then raises, modelled by `none`. -/
def hexTriple (s : String) : Option (Nat × Nat × Nat) := do
  let t := lstripHash s.data
  let r ← pyIntHex16 ((t.drop 0).take 2)
  let g ← pyIntHex16 ((t.drop 2).take 2)
  let b ← pyIntHex16 ((t.drop 4).take 2)
  pure (r, g, b)

/-- Lines 510-515 (also 490-494) of `render_social_text_layer`: the plain
(no-effect) path converts `color` with the fallback
`if isinstance(color, str) and color.startswith('#'): <parse> else: (0,0,0)`.
`none` input models a non-string value; `none` output models an uncaught
`ValueError` from the parse. -/
def social_text_default_fill (color : Option String) : Option (Nat × Nat × Nat) :=
  match color with
  | some s => if s.data.head? = some '#' then hexTriple s else some (0, 0, 0)
  | none => some (0, 0, 0)

/-! ## Raster images

`Img` models a PIL image: a mode, a pixel size and a pixel map.  Images of
mode `RGB` are always built with alpha 255.  `copy()` is the identity on
this value-level model. -/

/-- PIL image mode (only the two modes the engine uses). -/
inductive PMode where
  | RGB
  | RGBA
deriving DecidableEq

/-- One pixel; for `RGB`-mode images the alpha channel is fixed at 255. -/
structure Pixel where
  r : Nat
  g : Nat
  b : Nat
  a : Nat
deriving DecidableEq

/-- A raster image. -/
structure Img where
  mode : PMode
  width : Nat
  height : Nat
  px : Nat → Nat → Pixel

/-- PIL `convert('RGBA')`: identity on RGBA images; on RGB images the alpha
channel is materialized as 255. -/
def Img.convertRGBA (i : Img) : Img :=
  match i.mode with
  | .RGBA => i
  | .RGB => ⟨.RGBA, i.width, i.height, fun x y => { i.px x y with a := 255 }⟩

/-- PIL `convert('RGB')`: identity on RGB images; on RGBA images the alpha
channel is discarded (no matting), leaving the color channels untouched. -/
def Img.convertRGB (i : Img) : Img :=
  match i.mode with
  | .RGB => i
  | .RGBA => ⟨.RGB, i.width, i.height, fun x y => { i.px x y with a := 255 }⟩

/-- An opaque white RGB raster (`Image.new('RGB', (w, h), "#FFFFFF")`). -/
def whiteImg (w h : Nat) : Img :=
  ⟨.RGB, w, h, fun _ _ => ⟨255, 255, 255, 255⟩⟩

/-! ## Effect renderers (lines 317-408)

Each effect function is translated to the list of PIL draw calls it issues;
the geometric/float parts of a call (`np.cos`/`np.sin` offsets, float-scaled
alphas) are carried symbolically by the loop indices that determine them.
A `none` result models a `ValueError` raised while parsing a color, before
the layer's buffer is composited. -/

/-- One PIL draw call issued by an effect renderer.  `text` is
`draw.text((x, y), txt, font=..., fill=rgb(+alpha))` where `alpha = none`
means a 3-tuple fill (opaque).  `neonGlow` is the glow stamp of
`apply_neon_effect` at `(x + int(gs*0.5*cos θ), y + int(gs*0.5*sin θ))`
with alpha `int(120*(gs/(intensity*5)))`, carried via `(gs, angle,
intensity)`.  `gradientPaste` is `apply_gradient_effect`'s masked-gradient
paste of the glyphs of `txt` at `(x, y)` fading `c1` to `c2`. -/
inductive DrawOp where
  | text (x y : Int) (txt : String) (rgb : Nat × Nat × Nat) (alpha : Option Nat)
  | neonGlow (x y : Int) (glowSize angle intensity : Nat) (txt : String)
      (rgb : Nat × Nat × Nat)
  | gradientPaste (x y : Int) (txt : String) (c1 c2 : Nat × Nat × Nat)
deriving DecidableEq

/-- Lines 317-328, `apply_neon_effect(draw, text, font, x, y, base_color,
glow_color, intensity=3)`: parse both colors (raising on malformed input),
stamp the glow at 12 angles for each radius `intensity*5 .. 1`, then a solid
white core and the base color at alpha 200. -/
def apply_neon_effect (text : String) (x y : Int) (base_color glow_color : String)
    (intensity : Nat := 3) : Option (List DrawOp) := do
  let base_rgb ← hexTriple base_color
  let glow_rgb ← hexTriple glow_color
  let glowStamps :=
    (((List.range (intensity * 5)).map (fun j => intensity * 5 - j)).map (fun gs =>
      ((List.range 12).map (· * 30)).map (fun angle =>
        DrawOp.neonGlow x y gs angle intensity text glow_rgb))).flatten
  pure (glowStamps ++
    [DrawOp.text x y text (255, 255, 255) (some 255),
     DrawOp.text x y text base_rgb (some 200)])

/-- Lines 330-336, `apply_chrome_effect`: four gray stamps at shrinking
diagonal offsets (`range(3, -1, -1)`, gray `80 + offset*40`), a bright
highlight at `(x+1, y+1)` alpha 180, then the final mid-gray fill. -/
def apply_chrome_effect (text : String) (x y : Int) : List DrawOp :=
  ((List.range 4).map (fun j => 3 - j)).map (fun (offset : Nat) =>
    let gray : Nat := 80 + offset * 40
    DrawOp.text (x - (offset : Int)) (y - (offset : Int)) text
      (gray, gray, gray) (some 255))
  ++ [DrawOp.text (x + 1) (y + 1) text (255, 255, 255) (some 180),
      DrawOp.text x y text (192, 192, 192) (some 255)]

/-- The five fire colors of lines 340-346, yellow core to dark red. -/
def fire_colors : List (Nat × Nat × Nat) :=
  [(255, 255, 0), (255, 200, 0), (255, 140, 0), (255, 69, 0), (139, 0, 0)]

/-- Lines 338-353, `apply_fire_effect`: for each indexed color, one stamp at
vertical offset `i*2` and alpha `255 - i*40`, plus (for `i > 0`) two ±1px
flicker stamps one pixel lower at half alpha. -/
def apply_fire_effect (text : String) (x y : Int) : List DrawOp :=
  ((fire_colors.enum).map (fun ic =>
    let i : Nat := ic.1
    let c := ic.2
    let offset : Int := (i : Int) * 2
    let alpha : Nat := 255 - i * 40
    [DrawOp.text x (y - offset) text c (some alpha)] ++
    (if i > 0 then
      [DrawOp.text (x - 1) (y - offset + 1) text c (some (alpha / 2)),
       DrawOp.text (x + 1) (y - offset + 1) text c (some (alpha / 2))]
     else []))).flatten

/-- Lines 355-361, `apply_3d_shadow_effect`: parse both colors (raising on
malformed input), stamp the shadow `depth` times along the diagonal at alpha
200 (`range(depth, 0, -1)`), then the face in the text color. -/
def apply_3d_shadow_effect (text : String) (x y : Int)
    (text_color shadow_color : String) (depth : Nat := 5) : Option (List DrawOp) := do
  let text_rgb ← hexTriple text_color
  let shadow_rgb ← hexTriple shadow_color
  pure ((((List.range depth).map (fun j => depth - j)).map (fun i =>
      DrawOp.text (x + (i : Int) * 2) (y + (i : Int) * 2) text shadow_rgb (some 200)))
    ++ [DrawOp.text x y text text_rgb (some 255)])

/-- Lines 363-382, `apply_gradient_effect`: parse both colors (raising on
malformed input); the bounding-box, row-interpolation and glyph-mask
construction are per-pixel collaborator work summarized by the single
`gradientPaste` op. -/
def apply_gradient_effect (text : String) (x y : Int)
    (color1 color2 : String) : Option (List DrawOp) := do
  let c1 ← hexTriple color1
  let c2 ← hexTriple color2
  pure [DrawOp.gradientPaste x y text c1 c2]

/-! ## Tab 2 layer model and renderer (lines 289-305, 384-408, 518-541) -/

/-- The `TextLayer` dataclass of lines 289-305, field for field. -/
structure TextLayer where
  id : Nat
  text : String
  font_style : String
  font_size : Nat
  text_color : String
  x : Int
  y : Int
  outline_width : Nat
  outline_color : String
  add_shadow : Bool
  shadow_blur : Nat
  add_glow : Bool
  opacity : Nat
  visible : Bool
  effect_type : String
deriving DecidableEq

/-- The eight outline offsets of lines 389-392: `dx, dy ∈ {-w, 0, w}` with
`(0, 0)` skipped, in Python loop order. -/
def outlineOffsets (w : Int) : List (Int × Int) :=
  [(-w, -w), (-w, 0), (-w, w), (0, -w), (0, w), (w, -w), (w, 0), (w, w)]

/-- Lines 384-393, `render_text_layer`: parse the text color (raising on
malformed input), optionally parse the outline color and stamp the eight
outline offsets with a 3-tuple fill, then the main fill. -/
def render_text_layer (l : TextLayer) : Option (List DrawOp) := do
  let text_rgb ← hexTriple l.text_color
  let outlineOps ←
    if l.outline_width > 0 then do
      let outline_rgb ← hexTriple l.outline_color
      pure ((outlineOffsets (l.outline_width : Int)).map (fun d =>
        DrawOp.text (l.x + d.1) (l.y + d.2) l.text outline_rgb none))
    else pure []
  pure (outlineOps ++ [DrawOp.text l.x l.y l.text text_rgb none])

/-- Lines 395-408, `render_text_layer_advanced`: dispatch on `effect_type`;
the gradient branch fires only when an image buffer was passed
(`hasImage`), otherwise the simple renderer runs. -/
def render_text_layer_advanced (l : TextLayer) (hasImage : Bool) :
    Option (List DrawOp) :=
  if l.effect_type = "neon" then
    apply_neon_effect l.text l.x l.y l.text_color l.outline_color
  else if l.effect_type = "chrome" then
    some (apply_chrome_effect l.text l.x l.y)
  else if l.effect_type = "fire" then
    some (apply_fire_effect l.text l.x l.y)
  else if l.effect_type = "3d" then
    apply_3d_shadow_effect l.text l.x l.y l.text_color l.outline_color
  else if l.effect_type = "gradient" && hasImage then
    apply_gradient_effect l.text l.x l.y l.text_color l.outline_color
  else
    render_text_layer l

/-- Python `fonts_available.get(key, list(fonts_available.values())[0])`
(lines 412, 529) over the startup font table. -/
def fontLookup (fontsAvailable : List (String × String)) (key : String) : String :=
  match fontsAvailable.lookup key with
  | some p => p
  | none => ((fontsAvailable.map Prod.snd).headD "")

/-- External collaborators of the Tab-2 render path: the startup font table,
`ImageFont.truetype` (which may raise), the execution of a list of draw
calls on a fresh transparent canvas-sized buffer (which may raise), and
`Image.alpha_composite`. -/
structure RenderParams where
  fontsAvailable : List (String × String)
  loadFont : String → Nat → Bool
  runOps : String → Nat → Nat × Nat → List DrawOp → Option Img
  comp : Img → Img → Img

/-- The `try` body of lines 527-537 for one layer: fresh transparent buffer,
font lookup and realization, effect dispatch (gradient receives the buffer),
draw execution.  `none` models any exception inside the `try`. -/
def renderLayerBuffer (P : RenderParams) (size : Nat × Nat) (l : TextLayer) :
    Option Img :=
  let font_path := fontLookup P.fontsAvailable l.font_style
  if P.loadFont font_path l.font_size then
    match
      (if l.effect_type ≠ "normal" then
        (if l.effect_type = "gradient" then render_text_layer_advanced l true
         else render_text_layer_advanced l false)
       else render_text_layer l) with
    | some ops => P.runOps font_path l.font_size size ops
    | none => none
  else none

/-- One iteration of the layer loop of lines 523-540: invisible layers are
skipped, a successfully rendered buffer is alpha-composited over the
accumulator, and any exception leaves the accumulator untouched
(`except ... print` at lines 539-540). -/
def tab2Step (P : RenderParams) (result : Img) (l : TextLayer) : Img :=
  if l.visible = false then result
  else
    match renderLayerBuffer P (result.width, result.height) l with
    | some buf => P.comp result buf
    | none => result

/-- Lines 518-541, `render_all_layers`: return the base image itself when it
is `None` or the layer list is empty; otherwise convert a copy of the base
to RGBA, run the layer loop, and convert the result to RGB. -/
def render_all_layers (P : RenderParams) (base : Option Img)
    (layers : List TextLayer) : Option Img :=
  match base with
  | none => none
  | some b =>
    if layers.isEmpty then some b
    else some (Img.convertRGB (layers.foldl (tab2Step P) (Img.convertRGBA b)))

/-! ## Tab 4: social post model (lines 307-312, 546-636) -/

/-- The `SocialLayer` dataclass of lines 307-312.  The stringly-keyed
`properties: Dict[str, Any]` bag is carried as a type parameter, since the
layer loop only passes it through to the per-layer renderers. -/
structure SocialLayer (Props : Type) where
  id : Nat
  type : String
  properties : Props
  visible : Bool
deriving DecidableEq

/-- External collaborators of the Tab-4 layer loop: `stampText` is
`render_social_text_layer(draw, props, img)` (lines 594-598), `stampLogo` is
the logo branch body of lines 599-624.  Both draw in place on the shared
canvas and may raise mid-way, so each returns the canvas as it stands when
the attempt ends (complete on success, partial on a raise) paired with a
flag recording whether it raised.  `flatten` is the white-matte flattening
of lines 626-629. -/
structure SocialRenderParams (Props : Type) where
  stampText : Img → Props → Img × Bool
  stampLogo : Img → Props → Img × Bool
  flatten : Img → Img

/-- The layer loop of lines 590-624: invisible layers are skipped
(lines 591-592), text and logo layers are dispatched on `layer.type`, any
other type falls through.  The `except ... print` at lines 597-598 and
623-624 consumes a raise at the layer boundary — the loop keeps the
returned canvas (`.1`), only logs the flag, and continues with the next
layer. -/
def render_social_layers {Props : Type} (Q : SocialRenderParams Props)
    (img0 : Img) (layers : List (SocialLayer Props)) : Img :=
  layers.foldl (fun img l =>
    if l.visible = false then img
    else if l.type = "text" then (Q.stampText img l.properties).1
    else if l.type = "logo" then (Q.stampLogo img l.properties).1
    else img) img0

/-- Lines 553-630, `render_social_post`, with the base raster of
lines 556-586 (whose construction never reads the layer list) supplied as
`base`: run the layer loop, then flatten against white. -/
def render_social_post {Props : Type} (Q : SocialRenderParams Props)
    (base : Img) (layers : List (SocialLayer Props)) : Img :=
  Q.flatten (render_social_layers Q base layers)

/-- The `post_sizes` dictionary of lines 546-551. -/
def post_sizes : List (String × Nat × Nat) :=
  [("Instagram Square (1:1)", 1080, 1080),
   ("Instagram Story (9:16)", 1080, 1920),
   ("Facebook Post (1.91:1)", 1200, 630),
   ("Twitter Post (16:9)", 1600, 900)]

/-- Lines 1250-1260, `create_base_canvas_color`: look up the post size
(`KeyError` lands in the `except` branch), coerce a non-`'#'`-string color
to white, build the solid canvas via `mkSolid` (`Image.new`, which raises on
an unparsable color string, again landing in the `except` branch).  Every
branch returns an empty layer list, next id 1 and empty history. -/
def create_base_canvas_color (Props : Type) (mkSolid : Nat → Nat → String → Option Img)
    (size_key : String) (bg_color : Option String) :
    Option Img × List (SocialLayer Props) × Nat × List (List (SocialLayer Props)) :=
  match post_sizes.lookup size_key with
  | none => (none, [], 1, [])
  | some (w, h) =>
    let c := match bg_color with
             | some s => if s.data.head? = some '#' then s else "#FFFFFF"
             | none => "#FFFFFF"
    match mkSolid w h c with
    | some img => (some img, [], 1, [])
    | none => (none, [], 1, [])

/-- Lines 1212-1241, `create_base_canvas_template`.  `loadTemplate` models
lines 1223-1233 (path check, `Image.open`, resize, white-matte flatten);
its `none` covers both the invalid-path branch and the decode-error
`except` branch, which fall back to a white canvas.  The outer `none`
models a `KeyError` on `post_sizes[size_key]`, which is re-raised inside
the `except` handler (line 1239) and escapes.  Every returning branch
yields an empty layer list, next id 1 and empty history. -/
def create_base_canvas_template (Props : Type) (loadTemplate : String → Option Img)
    (size_key : String) (template_path : Option String) :
    Option (Option Img × List (SocialLayer Props) × Nat × List (List (SocialLayer Props))) :=
  match template_path with
  | none => some (none, [], 1, [])
  | some p =>
    match post_sizes.lookup size_key with
    | none => none
    | some (w, h) =>
      match loadTemplate p with
      | some img => some (some img, [], 1, [])
      | none => some (some (whiteImg w h), [], 1, [])

/-! ## Tab 2: layer mutation handlers and history (lines 944-1051) -/

/-- The mutable Gradio state of Tab 2 that the mutation handlers read and
write: `layers_state`, `next_layer_id` and `history`. -/
structure Tab2State where
  layers : List TextLayer
  nextId : Nat
  hist : List (List TextLayer)
deriving DecidableEq

/-- The initial Tab-2 state (lines 944-946): no layers, next id 1, empty
history. -/
def tab2Init : Tab2State := ⟨[], 1, []⟩

/-- Python `(hist + [copy.deepcopy(layers)])[-20:]` (lines 1009, 1022):
append the snapshot, keep the last 20 entries.  `copy.deepcopy` is the
identity on this value-level model. -/
def pushHist {α : Type} (hist : List α) (snap : α) : List α :=
  (hist ++ [snap]).drop ((hist ++ [snap]).length - 20)

/-- Python `not txt.strip()`: true iff the text is empty or whitespace-only
(agreement with Python is exact on ASCII, which covers every input the
theorems use). -/
def stripEmpty (s : String) : Bool := s.data.all Char.isWhitespace

/-- The arguments of the `add_text` handler (line 1006) that shape the new
layer. -/
structure AddInput where
  txt : String
  fnt : String
  sz : Nat
  tcol : String
  ocol : String
  ow : Nat
  shad : Bool
  blur : Nat
  glow : Bool
  opac : Nat
  x : Int
  y : Int
  effect_type : String
deriving DecidableEq

/-- The `TextLayer(...)` construction of line 1010, positionally. -/
def mkTextLayer (nextId : Nat) (i : AddInput) : TextLayer :=
  ⟨nextId, i.txt, i.fnt, i.sz, i.tcol, i.x, i.y, i.ow, i.ocol, i.shad,
   i.blur, i.glow, i.opac, true, i.effect_type⟩

/-- Lines 1006-1013, `add_text`: reject when no base image is loaded or the
text is blank (state unchanged); otherwise push the pre-mutation layer list
onto the history, append the new layer, and bump the id counter. -/
def add_text (hasBase : Bool) (s : Tab2State) (i : AddInput) : Tab2State :=
  if hasBase = false then s
  else if stripEmpty i.txt then s
  else
    { layers := s.layers ++ [mkTextLayer s.nextId i],
      nextId := s.nextId + 1,
      hist := pushHist s.hist s.layers }

/-- Lines 1020-1025, `remove_last`: no-op on an empty list; otherwise push
the pre-mutation layer list onto the history and drop the final layer (the
id counter is not an output of this handler). -/
def remove_last (s : Tab2State) : Tab2State :=
  if s.layers.isEmpty then s
  else { s with layers := s.layers.dropLast, hist := pushHist s.hist s.layers }

/-- Lines 1032-1037, `undo`: no-op on an empty history; otherwise replace
the live layer list by the most recent snapshot and pop it (the id counter
is not an output of this handler). -/
def undo (s : Tab2State) : Tab2State :=
  if s.hist.isEmpty then s
  else { s with layers := (s.hist.getLast?).getD [], hist := s.hist.dropLast }

/-- Lines 1044-1046, `clear_all_layers`: both branches output an empty layer
list, next id 1 and an empty history (only the status text differs). -/
def clear_all_layers : Tab2State := ⟨[], 1, []⟩

/-- Lines 981-989, the `load_btn.click` chain: the first handler updates the
preview, the `.then(lambda x: x)` stores the Tab-1 image into
`base_image_state`.  Neither handler writes `layers_state`, `next_layer_id`
or `history`. -/
structure Tab2Full where
  base : Option Img
  st : Tab2State

/-- The state transition of the `load_btn.click` chain. -/
def load_image_from_tab1 (imgDisplay : Option Img) (f : Tab2Full) : Tab2Full :=
  { f with base := imgDisplay }

/-- One user-triggered mutation of Tab 2. -/
inductive Tab2Op where
  | add (i : AddInput)
  | removeLast
  | undoOp
  | clearAll
deriving DecidableEq

/-- Dispatch one operation to its handler. -/
def stepOp (hasBase : Bool) (s : Tab2State) : Tab2Op → Tab2State
  | .add i => add_text hasBase s i
  | .removeLast => remove_last s
  | .undoOp => undo s
  | .clearAll => clear_all_layers

/-- Run a sequence of operations. -/
def run_tab2 (hasBase : Bool) (s : Tab2State) (ops : List Tab2Op) : Tab2State :=
  ops.foldl (stepOp hasBase) s

/-- True iff every operation in the sequence is a snapshot-pushing mutation
(`add` with a base and non-blank text, or `remove_last` on a non-empty
list). -/
def mutSucceeds (hasBase : Bool) : Tab2State → List Tab2Op → Bool
  | _, [] => true
  | s, .add i :: ops =>
    (hasBase && !stripEmpty i.txt) && mutSucceeds hasBase (add_text hasBase s i) ops
  | s, .removeLast :: ops =>
    !s.layers.isEmpty && mutSucceeds hasBase (remove_last s) ops
  | _, .undoOp :: _ => false
  | _, .clearAll :: _ => false

/-- The pre-mutation layer lists, in order, that a sequence of successful
mutations snapshots. -/
def mut_snaps (hasBase : Bool) : Tab2State → List Tab2Op → List (List TextLayer)
  | _, [] => []
  | s, .add i :: ops => s.layers :: mut_snaps hasBase (add_text hasBase s i) ops
  | s, .removeLast :: ops => s.layers :: mut_snaps hasBase (remove_last s) ops
  | s, .undoOp :: ops => mut_snaps hasBase (undo s) ops
  | _, .clearAll :: ops => mut_snaps hasBase clear_all_layers ops

/-- The ids handed out by the successful `add` operations of a sequence, in
order. -/
def assigned_ids (hasBase : Bool) : Tab2State → List Tab2Op → List Nat
  | _, [] => []
  | s, .add i :: ops =>
    (if hasBase && !stripEmpty i.txt then [s.nextId] else []) ++
      assigned_ids hasBase (add_text hasBase s i) ops
  | s, .removeLast :: ops => assigned_ids hasBase (remove_last s) ops
  | s, .undoOp :: ops => assigned_ids hasBase (undo s) ops
  | _, .clearAll :: ops => assigned_ids hasBase clear_all_layers ops

/-- True iff the sequence contains no `clear_all_layers`. -/
def noClear (ops : List Tab2Op) : Bool :=
  ops.all (fun op => match op with | .clearAll => false | _ => true)

/-! ## Concrete fixtures used to instantiate the collaborator parameters -/

/-- A sample collaborator instantiation: one font, `truetype` failing only
at pixel size 13, a draw executor whose output depends on the op list, and
a compositor mixing both arguments. -/
def sampleParams : RenderParams :=
  ⟨[("F", "fonts/F.ttf")],
   fun _ sz => !(sz == 13),
   fun _ _ sz ops => some ⟨.RGBA, sz.1, sz.2, fun _ _ => ⟨ops.length % 256, 0, 0, 255⟩⟩,
   fun a b => ⟨a.mode, a.width, a.height,
     fun x y => ⟨(b.px x y).r, (a.px x y).g, (b.px x y).b, 255⟩⟩⟩

/-- A small opaque white RGB base raster. -/
def sampleBase : Img := whiteImg 4 4

/-- An RGBA base raster with a translucent pixel. -/
def rgbaBase : Img := ⟨.RGBA, 1, 1, fun _ _ => ⟨10, 20, 30, 100⟩⟩

/-- A visible layer whose render succeeds under `sampleParams`. -/
def visLayer : TextLayer :=
  ⟨1, "Hi", "F", 12, "#FF0000", 10, 10, 2, "#00FF00", false, 0, false, 100, true, "chrome"⟩

/-- A visible layer whose render raises under `sampleParams` (font size 13). -/
def failLayer : TextLayer :=
  ⟨2, "Oops", "F", 13, "#FFFFFF", 0, 0, 0, "#000000", false, 0, false, 100, true, "normal"⟩

/-- An invisible layer. -/
def invisLayer : TextLayer :=
  ⟨3, "Hidden", "F", 12, "#FFFFFF", 0, 0, 0, "#000000", false, 0, false, 100, false, "normal"⟩

/-- A neon layer at opacity 100. -/
def neonLayerFull : TextLayer :=
  ⟨5, "Neon", "F", 12, "#FF0000", 3, 4, 2, "#00FF00", false, 0, false, 100, true, "neon"⟩

/-- The same neon layer at opacity 0. -/
def neonLayerZero : TextLayer :=
  ⟨5, "Neon", "F", 12, "#FF0000", 3, 4, 2, "#00FF00", false, 0, false, 0, true, "neon"⟩

/-- A sample Tab-4 collaborator instantiation over a `Nat` property bag:
a text stamp with property 99 raises before touching the canvas, every
other text stamp paints the canvas white, logo stamps are no-ops. -/
def sampleSocialParams : SocialRenderParams Nat :=
  ⟨fun img p => (if p == 99 then img else whiteImg img.width img.height, !(p == 99)),
   fun img _ => (img, false),
   fun img => img⟩

/-- A visible social text layer. -/
def socialVis : SocialLayer Nat := ⟨1, "text", 0, true⟩

/-- An invisible social text layer. -/
def socialInvis : SocialLayer Nat := ⟨2, "text", 0, false⟩

/-- A visible social text layer whose stamp raises (under
`sampleSocialParams`) before any draw call lands. -/
def socialFail : SocialLayer Nat := ⟨3, "text", 99, true⟩

/-- A valid `add_text` input. -/
def inpA : AddInput :=
  ⟨"a", "F", 20, "#FFFFFF", "#000000", 0, false, 0, false, 100, 5, 5, "normal"⟩

/-- A second valid `add_text` input. -/
def inpB : AddInput :=
  ⟨"b", "F", 20, "#FFFFFF", "#000000", 0, false, 0, false, 100, 5, 5, "normal"⟩

/-- A third valid `add_text` input. -/
def inpC : AddInput :=
  ⟨"c", "F", 20, "#FFFFFF", "#000000", 0, false, 0, false, 100, 5, 5, "normal"⟩

/-- Twenty-five successive valid `add` operations. -/
def ops25 : List Tab2Op := List.replicate 25 (Tab2Op.add inpA)

/-- An id-reuse trigger: add, clear all, add again. -/
def opsClear : List Tab2Op := [.add inpA, .clearAll, .add inpB]

/-- A clear-free mixed sequence: add, undo, add, remove last, add. -/
def opsMixed : List Tab2Op := [.add inpA, .undoOp, .add inpB, .removeLast, .add inpC]

/-- A Tab-2 full state holding one layer and one history snapshot. -/
def tab2Busy : Tab2Full := ⟨none, ⟨[visLayer], 2, [[]]⟩⟩

/-! ## Helper lemmas -/

theorem pushHist_length {α : Type} (h : List α) (s : α) :
    (pushHist h s).length = min (h.length + 1) 20 := by
  simp [pushHist]
  omega

theorem pushHist_le20 {α : Type} (h : List α) (s : α) :
    (pushHist h s).length ≤ 20 := by
  rw [pushHist_length]
  omega

theorem pushHist_getLast? {α : Type} (h : List α) (s : α) :
    (pushHist h s).getLast? = some s := by
  have hm : (h ++ [s]).length - 20 ≤ h.length := by
    simp only [List.length_append, List.length_cons, List.length_nil]
    omega
  rw [pushHist, List.drop_append_of_le_length hm, List.getLast?_concat]

theorem pushHist_isEmpty {α : Type} (h : List α) (s : α) :
    (pushHist h s).isEmpty = false := by
  have hl := pushHist_length h s
  cases hE : (pushHist h s).isEmpty
  · rfl
  · exfalso
    rw [List.isEmpty_iff] at hE
    rw [hE] at hl
    simp only [List.length_nil] at hl
    omega

theorem foldl_pushHist {α : Type} (snaps : List α) :
    ∀ h : List α, h.length ≤ 20 →
      List.foldl pushHist h snaps =
        (h ++ snaps).drop (h.length + snaps.length - 20) := by
  induction snaps with
  | nil =>
    intro h hh
    simp [Nat.sub_eq_zero_of_le hh]
  | cons a as ih =>
    intro h hh
    rw [List.foldl_cons, ih (pushHist h a) (pushHist_le20 h a)]
    have hm : (h ++ [a]).length - 20 ≤ (h ++ [a]).length := by omega
    rw [pushHist, ← List.drop_append_of_le_length hm, List.drop_drop]
    have hassoc : (h ++ [a]) ++ as = h ++ a :: as := by simp
    rw [hassoc]
    congr 1
    simp only [List.length_drop, List.length_append, List.length_cons,
      List.length_nil]
    omega

theorem run_hist_eq (ops : List Tab2Op) :
    ∀ s : Tab2State, mutSucceeds true s ops = true →
      (run_tab2 true s ops).hist =
        List.foldl pushHist s.hist (mut_snaps true s ops) := by
  induction ops with
  | nil => intro s _; rfl
  | cons op ops ih =>
    intro s hs
    cases op with
    | add i =>
      rw [mutSucceeds] at hs
      simp only [Bool.true_and, Bool.and_eq_true, Bool.not_eq_true'] at hs
      obtain ⟨htxt, hrest⟩ := hs
      have hadd : add_text true s i =
          ⟨s.layers ++ [mkTextLayer s.nextId i], s.nextId + 1,
           pushHist s.hist s.layers⟩ := by
        simp [add_text, htxt]
      show (run_tab2 true (add_text true s i) ops).hist = _
      rw [ih _ hrest, mut_snaps, List.foldl_cons, hadd]
    | removeLast =>
      rw [mutSucceeds] at hs
      simp only [Bool.and_eq_true, Bool.not_eq_true'] at hs
      obtain ⟨hne, hrest⟩ := hs
      have hrem : remove_last s =
          { s with layers := s.layers.dropLast,
                   hist := pushHist s.hist s.layers } := by
        simp [remove_last, hne]
      show (run_tab2 true (remove_last s) ops).hist = _
      rw [ih _ hrest, mut_snaps, List.foldl_cons, hrem]
    | undoOp => rw [mutSucceeds] at hs; exact absurd hs (by simp)
    | clearAll => rw [mutSucceeds] at hs; exact absurd hs (by simp)

theorem mut_snaps_length (ops : List Tab2Op) :
    ∀ s : Tab2State, mutSucceeds true s ops = true →
      (mut_snaps true s ops).length = ops.length := by
  induction ops with
  | nil => intro s _; rfl
  | cons op ops ih =>
    intro s hs
    cases op with
    | add i =>
      rw [mutSucceeds] at hs
      simp only [Bool.true_and, Bool.and_eq_true, Bool.not_eq_true'] at hs
      rw [mut_snaps, List.length_cons, ih _ hs.2, List.length_cons]
    | removeLast =>
      rw [mutSucceeds] at hs
      simp only [Bool.and_eq_true, Bool.not_eq_true'] at hs
      rw [mut_snaps, List.length_cons, ih _ hs.2, List.length_cons]
    | undoOp => rw [mutSucceeds] at hs; exact absurd hs (by simp)
    | clearAll => rw [mutSucceeds] at hs; exact absurd hs (by simp)

theorem remove_last_nextId (s : Tab2State) : (remove_last s).nextId = s.nextId := by
  rw [remove_last]; split <;> rfl

theorem undo_nextId (s : Tab2State) : (undo s).nextId = s.nextId := by
  rw [undo]; split <;> rfl

theorem assigned_ids_bound (ops : List Tab2Op) :
    ∀ s : Tab2State, noClear ops = true →
      List.Pairwise (· < ·) (assigned_ids true s ops) ∧
        ∀ n ∈ assigned_ids true s ops, s.nextId ≤ n := by
  induction ops with
  | nil => intro s _; exact ⟨List.Pairwise.nil, by simp [assigned_ids]⟩
  | cons op ops ih =>
    intro s hnc
    have hnc' : noClear ops = true := by
      rw [noClear] at hnc ⊢
      simp only [List.all_cons, Bool.and_eq_true] at hnc
      exact hnc.2
    cases op with
    | add i =>
      by_cases htxt : stripEmpty i.txt
      · have hskip : add_text true s i = s := by simp [add_text, htxt]
        rw [assigned_ids]
        simp only [htxt, Bool.not_true, Bool.and_false, Bool.true_and,
          Bool.false_eq_true, if_false, List.nil_append, hskip]
        exact ih s hnc'
      · have htxt' : stripEmpty i.txt = false := by
          cases h : stripEmpty i.txt
          · rfl
          · exact absurd h htxt
        have hnext : (add_text true s i).nextId = s.nextId + 1 := by
          simp [add_text, htxt']
        obtain ⟨hpw, hbd⟩ := ih (add_text true s i) hnc'
        rw [assigned_ids]
        simp only [htxt', Bool.not_false, Bool.and_true, Bool.true_and, if_true,
          List.singleton_append]
        constructor
        · exact List.Pairwise.cons
            (fun n hn => by have := hbd n hn; rw [hnext] at this; omega) hpw
        · intro n hn
          rcases List.mem_cons.mp hn with h | h
          · omega
          · have := hbd n h; rw [hnext] at this; omega
    | removeLast =>
      obtain ⟨hpw, hbd⟩ := ih (remove_last s) hnc'
      rw [assigned_ids]
      refine ⟨hpw, fun n hn => ?_⟩
      have := hbd n hn
      rw [remove_last_nextId] at this
      exact this
    | undoOp =>
      obtain ⟨hpw, hbd⟩ := ih (undo s) hnc'
      rw [assigned_ids]
      refine ⟨hpw, fun n hn => ?_⟩
      have := hbd n hn
      rw [undo_nextId] at this
      exact this
    | clearAll =>
      exfalso
      rw [noClear] at hnc
      simp at hnc

theorem tab2Step_opacity (P : RenderParams) (r : Img) (l : TextLayer) (o : Nat) :
    tab2Step P r { l with opacity := o } = tab2Step P r l := by
  cases l; rfl

theorem pyIntHex16_pair (a b : Char) (ha : isHexDigit a = true)
    (hb : isHexDigit b = true) :
    pyIntHex16 [a, b] = some (16 * hexDigitVal a + hexDigitVal b) := by
  simp [pyIntHex16, ha, hb]

theorem isHexDigit_beq_hash (c : Char) (h : isHexDigit c = true) :
    (c == '#') = false := by
  cases hc : c == '#'
  · rfl
  · rw [eq_of_beq hc] at h
    exact absurd h (by decide)

/-! ## Claim theorems -/

/-- C1, counterexample: the claim says every malformed color input yields
the fallback `(0, 0, 0)` without an error escaping into the rendering path.
In fact the parse idiom raises (`none`): `"garbage"` raises, a `'#'`-headed
non-hex string raises even through the social default-fill guard, and
`apply_neon_effect` propagates the parse failure out of the color-parsing
site instead of producing a black fallback. -/
theorem c1_counterexample :
    hexTriple "garbage" = none
    ∧ social_text_default_fill (some "#GG0000") = none
    ∧ apply_neon_effect "Hi" 0 0 "garbage" "#FF00FF" 3 = none :=
  ⟨by decide, by decide, by decide⟩

/-- C1 (amended): on a well-formed `#RRGGBB` string the parse idiom returns
the exact decoded channel triple; the social plain-text path falls back to
`(0, 0, 0)` exactly when the color is not a `'#'`-headed string (including
the non-string case); a `'#'`-headed malformed string instead raises out of
the parse site (caught only at the per-layer boundary). -/
theorem c1_amended :
    (∀ c₁ c₂ c₃ c₄ c₅ c₆ : Char,
      isHexDigit c₁ = true → isHexDigit c₂ = true → isHexDigit c₃ = true →
      isHexDigit c₄ = true → isHexDigit c₅ = true → isHexDigit c₆ = true →
      hexTriple ⟨['#', c₁, c₂, c₃, c₄, c₅, c₆]⟩ =
        some (16 * hexDigitVal c₁ + hexDigitVal c₂,
              16 * hexDigitVal c₃ + hexDigitVal c₄,
              16 * hexDigitVal c₅ + hexDigitVal c₆))
    ∧ (∀ s : String, s.data.head? ≠ some '#' →
        social_text_default_fill (some s) = some (0, 0, 0))
    ∧ social_text_default_fill none = some (0, 0, 0)
    ∧ social_text_default_fill (some "#GG0000") = none := by
  refine ⟨?_, ?_, rfl, by decide⟩
  · intro c₁ c₂ c₃ c₄ c₅ c₆ h₁ h₂ h₃ h₄ h₅ h₆
    have hb := isHexDigit_beq_hash c₁ h₁
    have p₁ := pyIntHex16_pair c₁ c₂ h₁ h₂
    have p₂ := pyIntHex16_pair c₃ c₄ h₃ h₄
    have p₃ := pyIntHex16_pair c₅ c₆ h₅ h₆
    simp [hexTriple, lstripHash, List.dropWhile, hb, p₁, p₂, p₃]
  · intro s hs
    simp [social_text_default_fill, hs]

/-- C1, witness: the spec's own examples, obtained from `c1_amended`. -/
theorem c1_witness :
    hexTriple "#FF0000" = some (255, 0, 0)
    ∧ social_text_default_fill (some "garbage") = some (0, 0, 0) := by
  constructor
  · have h := c1_amended.1 'F' 'F' '0' '0' '0' '0' (by decide) (by decide)
      (by decide) (by decide) (by decide) (by decide)
    have he : (16 * hexDigitVal 'F' + hexDigitVal 'F',
               16 * hexDigitVal '0' + hexDigitVal '0',
               16 * hexDigitVal '0' + hexDigitVal '0') =
        ((255 : Nat), (0 : Nat), (0 : Nat)) := by decide
    rw [he] at h
    exact h
  · exact c1_amended.2.1 "garbage" (by decide)

set_option maxRecDepth 8192 in
/-- C2, counterexample: the claim says two renders of the same layer
differing only in `opacity` produce different composited alpha; here two
such renders (opacity 100 vs 0, all collaborators concrete and the draw
executor sensitive to the op list) are identical. -/
theorem c2_counterexample :
    render_all_layers sampleParams (some sampleBase) [neonLayerFull] =
      render_all_layers sampleParams (some sampleBase) [neonLayerZero] := rfl

/-- C2 (amended): each visible layer is rendered into a fresh canvas-sized
transparent buffer and alpha-composited, but the `opacity` field is never
read by any Tab-2 rendering path: for every collaborator instantiation,
base raster and layer list, changing one layer's opacity leaves the
composite unchanged. -/
theorem c2_amended (P : RenderParams) (base : Option Img)
    (pre post : List TextLayer) (l : TextLayer) (o₁ o₂ : Nat) :
    render_all_layers P base (pre ++ [{ l with opacity := o₁ }] ++ post) =
      render_all_layers P base (pre ++ [{ l with opacity := o₂ }] ++ post) := by
  cases base with
  | none => rfl
  | some b =>
    have hne : ∀ o : Nat,
        (pre ++ [{ l with opacity := o }] ++ post).isEmpty = false := by
      intro o
      cases hE : (pre ++ [{ l with opacity := o }] ++ post).isEmpty
      · rfl
      · exfalso
        rw [List.isEmpty_iff] at hE
        simp at hE
    simp only [render_all_layers, hne o₁, hne o₂, Bool.false_eq_true, if_false]
    simp only [List.foldl_append, List.foldl_cons, List.foldl_nil]
    simp only [tab2Step_opacity]

/-- C3: the history stack is bounded at 20 with FIFO eviction: after any
sequence of successful `add`/`remove_last` mutations, the stack equals the
most recent (at most 20) pre-mutation layer lists, with the oldest evicted
first; every successful `add` and `remove_last` pushes the pre-mutation
layer list. -/
theorem c3_history_bound (s : Tab2State) (ops : List Tab2Op)
    (hs : mutSucceeds true s ops = true) (hh : s.hist.length ≤ 20) :
    (run_tab2 true s ops).hist =
      (s.hist ++ mut_snaps true s ops).drop (s.hist.length + ops.length - 20)
    ∧ (run_tab2 true s ops).hist.length = min (s.hist.length + ops.length) 20
    ∧ (∀ (t : Tab2State) (i : AddInput), stripEmpty i.txt = false →
        (add_text true t i).hist = pushHist t.hist t.layers)
    ∧ (∀ t : Tab2State, t.layers.isEmpty = false →
        (remove_last t).hist = pushHist t.hist t.layers) := by
  have h1 := run_hist_eq ops s hs
  have h2 := foldl_pushHist (mut_snaps true s ops) s.hist hh
  have h3 := mut_snaps_length ops s hs
  refine ⟨?_, ?_, ?_, ?_⟩
  · rw [h1, h2, h3]
  · rw [h1, h2, h3]
    simp only [List.length_drop, List.length_append]
    omega
  · intro t i hi
    simp [add_text, hi]
  · intro t ht
    simp [remove_last, ht]

/-- C3, witness: after 25 successive valid adds from the initial state the
history stack size is exactly 20. -/
theorem c3_witness : (run_tab2 true tab2Init ops25).hist.length = 20 := by
  have h := (c3_history_bound tab2Init ops25 (by decide) (by decide)).2.1
  simpa [tab2Init, ops25] using h

/-- C4: undo round-trip: for every state and valid add input, `add` then
`undo` restores the live layer list. -/
theorem c4_undo_roundtrip (s : Tab2State) (i : AddInput)
    (h : stripEmpty i.txt = false) :
    (undo (add_text true s i)).layers = s.layers := by
  have hadd : add_text true s i =
      ⟨s.layers ++ [mkTextLayer s.nextId i], s.nextId + 1,
       pushHist s.hist s.layers⟩ := by
    simp [add_text, h]
  rw [hadd, undo]
  simp [pushHist_isEmpty, pushHist_getLast?]

/-- C4, witness: from the empty initial state, add once then undo once
returns the empty layer list. -/
theorem c4_witness : (undo (add_text true tab2Init inpA)).layers = [] :=
  c4_undo_roundtrip tab2Init inpA (by decide)

/-- C5, counterexample: the claim says every canvas-replacing operation also
clears the layer list and the undo history; the Tab-2 "Load Image from
Tab 1" operation replaces the base raster but leaves both untouched. -/
theorem c5_counterexample :
    (load_image_from_tab1 (some sampleBase) tab2Busy).st.layers ≠ []
    ∧ (load_image_from_tab1 (some sampleBase) tab2Busy).st.hist ≠ [] :=
  ⟨by decide, by decide⟩

/-- C5 (amended): the Tab-4 canvas creators (solid color and template)
always output an empty layer list, next id 1 and empty history; the Tab-2
load-image operation replaces the base while leaving the layer/history
state exactly as it was. -/
theorem c5_amended :
    (∀ (Props : Type) (mkSolid : Nat → Nat → String → Option Img)
        (sk : String) (bg : Option String),
      (create_base_canvas_color Props mkSolid sk bg).2.1 = []
      ∧ (create_base_canvas_color Props mkSolid sk bg).2.2.1 = 1
      ∧ (create_base_canvas_color Props mkSolid sk bg).2.2.2 = [])
    ∧ (∀ (Props : Type) (loadTemplate : String → Option Img) (sk : String)
        (tp : Option String) r,
      create_base_canvas_template Props loadTemplate sk tp = some r →
      r.2.1 = [] ∧ r.2.2.1 = 1 ∧ r.2.2.2 = [])
    ∧ (∀ (imgDisplay : Option Img) (f : Tab2Full),
      (load_image_from_tab1 imgDisplay f).st = f.st) := by
  refine ⟨?_, ?_, fun _ _ => rfl⟩
  · intro Props mkSolid sk bg
    unfold create_base_canvas_color
    refine ⟨?_, ?_, ?_⟩ <;>
      · split
        · rfl
        · dsimp only
          split <;> rfl
  · intro Props loadTemplate sk tp r hr
    unfold create_base_canvas_template at hr
    split at hr
    · cases hr
      exact ⟨rfl, rfl, rfl⟩
    · split at hr
      · cases hr
      · split at hr
        · cases hr
          exact ⟨rfl, rfl, rfl⟩
        · cases hr
          exact ⟨rfl, rfl, rfl⟩

/-- C5, witness: concrete instances of the three parts of `c5_amended`. -/
theorem c5_witness :
    ((create_base_canvas_color Nat (fun _ _ _ => none)
        "Instagram Square (1:1)" (some "#00FF00")).2.1 = []
      ∧ (create_base_canvas_color Nat (fun _ _ _ => none)
          "Instagram Square (1:1)" (some "#00FF00")).2.2.1 = 1
      ∧ (create_base_canvas_color Nat (fun _ _ _ => none)
          "Instagram Square (1:1)" (some "#00FF00")).2.2.2 = [])
    ∧ (((some (whiteImg 1080 1080), [], 1, []) :
          Option Img × List (SocialLayer Nat) × Nat ×
            List (List (SocialLayer Nat))).2.1 = []
      ∧ ((some (whiteImg 1080 1080), [], 1, []) :
          Option Img × List (SocialLayer Nat) × Nat ×
            List (List (SocialLayer Nat))).2.2.1 = 1
      ∧ ((some (whiteImg 1080 1080), [], 1, []) :
          Option Img × List (SocialLayer Nat) × Nat ×
            List (List (SocialLayer Nat))).2.2.2 = [])
    ∧ (load_image_from_tab1 none tab2Busy).st = tab2Busy.st :=
  ⟨c5_amended.1 Nat (fun _ _ _ => none) "Instagram Square (1:1)" (some "#00FF00"),
   c5_amended.2.1 Nat (fun _ => none) "Instagram Square (1:1)" (some "t.png")
     (some (whiteImg 1080 1080), [], 1, []) rfl,
   c5_amended.2.2 none tab2Busy⟩

/-- C6, counterexample: with an RGBA base carrying a translucent pixel, a
list holding one invisible layer renders to an RGB-converted copy of the
base, while the same list with that layer removed (the empty list) returns
the base itself — the two rasters differ. -/
theorem c6_counterexample :
    render_all_layers sampleParams (some rgbaBase) [invisLayer] ≠
      render_all_layers sampleParams (some rgbaBase) [] := by
  intro hEq
  have h1 : render_all_layers sampleParams (some rgbaBase) [invisLayer] =
      some (Img.convertRGB rgbaBase) := rfl
  have h2 : render_all_layers sampleParams (some rgbaBase) [] =
      some rgbaBase := rfl
  rw [h1, h2] at hEq
  have hmode := congrArg (fun o : Option Img => o.map Img.mode) hEq
  simp [Img.convertRGB, rgbaBase] at hmode

/-- C6 (amended): hiding a layer is pixel-identical to removing it whenever
`render_all_layers`'s remaining list is non-empty (the empty-list
short-circuit returns the base verbatim instead of an RGB-converted copy),
and unconditionally for the social-post renderer. -/
theorem c6_invisible_equiv :
    (∀ (P : RenderParams) (b : Img) (pre : List TextLayer) (d : TextLayer)
        (post : List TextLayer), d.visible = false → pre ++ post ≠ [] →
      render_all_layers P (some b) (pre ++ [d] ++ post) =
        render_all_layers P (some b) (pre ++ post))
    ∧ (∀ (Props : Type) (Q : SocialRenderParams Props) (img0 : Img)
        (pre : List (SocialLayer Props)) (d : SocialLayer Props)
        (post : List (SocialLayer Props)), d.visible = false →
      render_social_post Q img0 (pre ++ [d] ++ post) =
        render_social_post Q img0 (pre ++ post)) := by
  constructor
  · intro P b pre d post hvis hne
    have hE1 : (pre ++ [d] ++ post).isEmpty = false := by
      cases hE : (pre ++ [d] ++ post).isEmpty
      · rfl
      · exfalso
        rw [List.isEmpty_iff] at hE
        simp at hE
    have hE2 : (pre ++ post).isEmpty = false := by
      cases hE : (pre ++ post).isEmpty
      · rfl
      · exact absurd (List.isEmpty_iff.mp hE) hne
    simp only [render_all_layers, hE1, hE2, Bool.false_eq_true, if_false]
    simp only [List.foldl_append, List.foldl_cons, List.foldl_nil]
    rw [show tab2Step P (List.foldl (tab2Step P) (Img.convertRGBA b) pre) d =
        List.foldl (tab2Step P) (Img.convertRGBA b) pre from by
      simp [tab2Step, hvis]]
  · intro Props Q img0 pre d post hvis
    unfold render_social_post render_social_layers
    simp only [List.foldl_append, List.foldl_cons, List.foldl_nil]
    congr 2
    simp [hvis]

/-- C6, witness: concrete instances of both parts of `c6_invisible_equiv`. -/
theorem c6_witness :
    render_all_layers sampleParams (some sampleBase)
        ([visLayer] ++ [invisLayer] ++ []) =
      render_all_layers sampleParams (some sampleBase) ([visLayer] ++ [])
    ∧ render_social_post sampleSocialParams sampleBase
        ([socialVis] ++ [socialInvis] ++ []) =
      render_social_post sampleSocialParams sampleBase ([socialVis] ++ []) :=
  ⟨c6_invisible_equiv.1 sampleParams sampleBase [visLayer] invisLayer []
      rfl (by simp),
   c6_invisible_equiv.2 Nat sampleSocialParams sampleBase [socialVis]
      socialInvis [] rfl⟩

/-- C7: per-layer failure isolation.  For `render_all_layers`: (1) for every
base and layer list the full render returns a raster — no exception ever
escapes; (2) a visible layer whose render raises is skipped, leaving the
composite equal to the render without that layer, when other layers remain;
(3) when the raising layer is the only layer, the result is the
background-only canvas (the base pushed through the RGBA/RGB conversion
endpoints).  For `render_social_post`: (4) a layer whose caught attempt
leaves every canvas unchanged (a raise before any draw lands) contributes
nothing; rendering continues with the remaining layers, for every layer
list including the singleton. -/
theorem c7_failure_isolated :
    (∀ (P : RenderParams) (b : Img) (layers : List TextLayer),
      (render_all_layers P (some b) layers).isSome = true)
    ∧ (∀ (P : RenderParams) (b : Img) (pre : List TextLayer) (bad : TextLayer)
        (post : List TextLayer), bad.visible = true →
        (∀ sz : Nat × Nat, renderLayerBuffer P sz bad = none) →
        pre ++ post ≠ [] →
        render_all_layers P (some b) (pre ++ [bad] ++ post) =
          render_all_layers P (some b) (pre ++ post))
    ∧ (∀ (P : RenderParams) (b : Img) (bad : TextLayer), bad.visible = true →
        (∀ sz : Nat × Nat, renderLayerBuffer P sz bad = none) →
        render_all_layers P (some b) [bad] =
          some (Img.convertRGB (Img.convertRGBA b)))
    ∧ (∀ (Props : Type) (Q : SocialRenderParams Props) (img0 : Img)
        (pre : List (SocialLayer Props)) (bad : SocialLayer Props)
        (post : List (SocialLayer Props)),
        (∀ c : Img, (Q.stampText c bad.properties).1 = c) →
        (∀ c : Img, (Q.stampLogo c bad.properties).1 = c) →
        render_social_post Q img0 (pre ++ [bad] ++ post) =
          render_social_post Q img0 (pre ++ post)) := by
  refine ⟨?_, ?_, ?_, ?_⟩
  · intro P b layers
    simp only [render_all_layers]
    split <;> rfl
  · intro P b pre bad post hvis hfail hne
    have hE1 : (pre ++ [bad] ++ post).isEmpty = false := by
      cases hE : (pre ++ [bad] ++ post).isEmpty
      · rfl
      · exfalso
        rw [List.isEmpty_iff] at hE
        simp at hE
    have hE2 : (pre ++ post).isEmpty = false := by
      cases hE : (pre ++ post).isEmpty
      · rfl
      · exact absurd (List.isEmpty_iff.mp hE) hne
    simp only [render_all_layers, hE1, hE2, Bool.false_eq_true, if_false]
    simp only [List.foldl_append, List.foldl_cons, List.foldl_nil]
    rw [show tab2Step P (List.foldl (tab2Step P) (Img.convertRGBA b) pre) bad =
        List.foldl (tab2Step P) (Img.convertRGBA b) pre from by
      simp [tab2Step, hvis, hfail]]
  · intro P b bad hvis hfail
    simp [render_all_layers, tab2Step, hvis, hfail]
  · intro Props Q img0 pre bad post hT hL
    have hstep : ∀ c : Img,
        (if bad.visible = false then c
         else if bad.type = "text" then (Q.stampText c bad.properties).1
         else if bad.type = "logo" then (Q.stampLogo c bad.properties).1
         else c) = c := by
      intro c
      split_ifs <;> first | rfl | exact hT c | exact hL c
    unfold render_social_post render_social_layers
    simp only [List.foldl_append, List.foldl_cons, List.foldl_nil, hstep]

/-- C7, witness: under `sampleParams` the size-13 layer's render raises and
is skipped next to a surviving layer, alone it yields the background-only
canvas, and the social renderer drops a raising-before-draw layer — with
the full render returning a raster throughout. -/
theorem c7_witness :
    (render_all_layers sampleParams (some sampleBase) [failLayer, visLayer]).isSome = true
    ∧ render_all_layers sampleParams (some sampleBase)
        ([] ++ [failLayer] ++ [visLayer]) =
      render_all_layers sampleParams (some sampleBase) ([] ++ [visLayer])
    ∧ render_all_layers sampleParams (some sampleBase) [failLayer] =
        some (Img.convertRGB (Img.convertRGBA sampleBase))
    ∧ render_social_post sampleSocialParams sampleBase
        ([socialVis] ++ [socialFail] ++ []) =
      render_social_post sampleSocialParams sampleBase ([socialVis] ++ []) :=
  ⟨c7_failure_isolated.1 sampleParams sampleBase [failLayer, visLayer],
   c7_failure_isolated.2.1 sampleParams sampleBase [] failLayer [visLayer] rfl
     (fun _ => rfl) (by simp),
   c7_failure_isolated.2.2.1 sampleParams sampleBase failLayer rfl (fun _ => rfl),
   c7_failure_isolated.2.2.2 Nat sampleSocialParams sampleBase [socialVis]
     socialFail [] (fun _ => rfl) (fun _ => rfl)⟩

/-- C8, counterexample: the claim says ids are never reused, including after
`clear`; but `clear_all_layers` resets the id counter to 1, so add, clear,
add assigns the id 1 twice. -/
theorem c8_counterexample :
    assigned_ids true tab2Init opsClear = [1, 1]
    ∧ ¬ List.Pairwise (· < ·) (assigned_ids true tab2Init opsClear) := by
  constructor
  · decide
  · intro h
    have he : assigned_ids true tab2Init opsClear = [1, 1] := by decide
    rw [he] at h
    exact absurd ((List.pairwise_cons.mp h).1 1 (by simp)) (by omega)

/-- C8 (amended): across any clear-free operation sequence (adds, removes
and undos), the ids assigned by successful adds are strictly increasing —
never reassigned or reused, including after `undo`; `clear_all_layers`
however resets the counter to 1 and allows reuse. -/
theorem c8_ids_monotone (s : Tab2State) (ops : List Tab2Op)
    (h : noClear ops = true) :
    List.Pairwise (· < ·) (assigned_ids true s ops) :=
  (assigned_ids_bound ops s h).1

/-- C8, witness: a concrete clear-free sequence with an undo and a remove
still assigns strictly increasing ids. -/
theorem c8_witness : List.Pairwise (· < ·) (assigned_ids true tab2Init opsMixed) :=
  c8_ids_monotone tab2Init opsMixed (by decide)

/-- C10: empty-render identity: with no base the render returns `None`, and
with an empty layer list it returns the base raster itself — no copy, no
RGBA conversion, no flattening. -/
theorem c10_empty_render_identity :
    (∀ (P : RenderParams) (layers : List TextLayer),
      render_all_layers P none layers = none)
    ∧ (∀ (P : RenderParams) (b : Img), render_all_layers P (some b) [] = some b) :=
  ⟨fun _ _ => rfl, fun _ _ => rfl⟩

end SinhalaTextCreator
